import Mathlib

/-!
Shallow embedding of `openassessment/xblock/static/js/src/studio/oa_container_item.js`.

The file defines the client-side container items of the rubric editor:
`OpenAssessment.ItemUtilities` (unique-name generation and option-label
formatting), `RubricOption`, `RubricCriterion`, `TrainingExample`,
`AIExample` and `AIExampleMenuItem`.

Modelling conventions:
* DOM-backed state (attribute values, input values, highlight CSS classes)
  is carried in explicit Lean structures; a jQuery `addClass`/`removeClass`
  of `openassessment_highlighted_field` becomes a `marked : Bool` flag.
* Identifier attributes (`data-option`, `data-criterion`, `data-example`)
  are decimal numerals produced by `createUniqueName`; the set of values
  present in a scope is modelled as a `List Nat` of the denoted numbers.
* Stateful methods become pure functions from the structure to an updated
  structure (paired with a `Bool` result or a notification payload where
  the source returns/fires one); the synchronous call order of the source
  is reflected by data flow: a payload built after a mutation is computed
  from the post-mutation state.
-/

namespace OpenAssessment

namespace ItemUtilities

/-- The body of the `while (index <= selector.length)` loop of
`ItemUtilities.createUniqueName`.  `selLen` is `selector.length`; `used` is
the multiset of values of the `nameAttribute` attribute found by
`selector.parent().find(...)` in the surrounding scope.  The loop scans
`index = 0, 1, ...` while `index ≤ selLen`, returning the first `index`
whose numeral is unused; when the loop exhausts, the current `index`
(which is `selLen + 1`) is returned.  The `fuel` argument only ensures
structural termination; `selLen + 2` steps always suffice because `index`
grows by one per step and the guard fails at `index = selLen + 1`. -/
def createUniqueNameLoop (selLen : Nat) (used : List Nat) : Nat → Nat → Nat
  | index, 0 => index
  | index, fuel + 1 =>
      if index ≤ selLen then
        if index ∈ used then createUniqueNameLoop selLen used (index + 1) fuel
        else index
      else index

/-- The integer computed by `ItemUtilities.createUniqueName` before its
final `toString`. -/
def createUniqueNameIndex (selLen : Nat) (used : List Nat) : Nat :=
  createUniqueNameLoop selLen used 0 (selLen + 2)

/-- The method `ItemUtilities.createUniqueName(selector, nameAttribute)`:
scan from 0 upward, bounded by `selector.length`, for a value of
`nameAttribute` not present in the parent scope, and return it as a
string. -/
def createUniqueName (selLen : Nat) (used : List Nat) : String :=
  toString (createUniqueNameIndex selLen used)

/-- Modelled from the spec: the external localization collaborator's
`gettext`, the identity on the source (English) string. -/
def gettext (s : String) : String := s

/-- Modelled from the spec: the external localization collaborator's
`ngettext`, choosing the singular form exactly when the count is 1. -/
def ngettext (singularForm pluralForm : String) (n : Int) : String :=
  if n = 1 then singularForm else pluralForm

/-- The method `ItemUtilities.refreshOptionString(element)` as a pure string
computation.  `points` is the parsed `data-points` attribute, `none`
standing for a value on which JavaScript `isNaN` is true (missing or
non-numeric); `labelAttr` is the `data-label` attribute and `name` the
option element's value.  The source first substitutes the
`Unnamed Option` placeholder for an empty label, precomputes the singular
and plural strings, then branches on the value and on `isNaN(points)`. -/
def refreshOptionString (points : Option Int) (labelAttr : String) (name : String) : String :=
  let label := if labelAttr = "" then gettext "Unnamed Option" else labelAttr
  let pointsText := match points with
    | none => "NaN"
    | some v => toString v
  let singularString := label ++ " - " ++ pointsText ++ " point"
  let multipleString := label ++ " - " ++ pointsText ++ " points"
  if name = "" then gettext "Not Selected"
  else
    match points with
    | none => label
    | some v => ngettext singularString multipleString v

end ItemUtilities

namespace Fields

/-- Modelled from the spec: `OpenAssessment.Fields.IntField` is defined in
the (absent) fields module.  It wraps one numeric form input with an
inclusive `[min, max]` restriction: `get` parses the input (NaN — here
`none` — when non-numeric), `validate` is true iff the parsed value lies
in range and on failure adds the highlight mark to the field,
`validationErrors` reports one message iff the mark is present, and
`clearValidationErrors` removes the mark. -/
structure IntField where
  value : Option Int
  min : Int
  max : Int
  marked : Bool
deriving DecidableEq

/-- Modelled from the spec: `IntField.get` returns the parsed value
(`none` models NaN). -/
def IntField.get (f : IntField) : Option Int := f.value

/-- Modelled from the spec: `IntField.set` overwrites the backing value. -/
def IntField.set (f : IntField) (v : Int) : IntField := { f with value := some v }

/-- Modelled from the spec: true iff the parsed value is numeric and lies
in the configured inclusive range. -/
def IntField.isValid (f : IntField) : Bool :=
  match f.value with
  | none => false
  | some v => decide (f.min ≤ v) && decide (v ≤ f.max)

/-- Modelled from the spec: `IntField.validate` marks the field on failure
and returns whether the value is in range; the mark is never removed by
`validate` itself. -/
def IntField.validate (f : IntField) : Bool × IntField :=
  if f.isValid then (true, f) else (false, { f with marked := true })

/-- Modelled from the spec: one error message iff the field carries the
highlight mark. -/
def IntField.validationErrors (f : IntField) : List String :=
  if f.marked then ["Int field is invalid"] else []

/-- Modelled from the spec: remove the highlight mark. -/
def IntField.clearValidationErrors (f : IntField) : IntField :=
  { f with marked := false }

end Fields

/-- The state of one `OpenAssessment.RubricOption`: the label and
explanation string fields, the points `IntField` (constructed with
`min 0, max 999`), the `data-criterion` and `data-option` attributes
(absent until `addHandler` stamps them) and the hidden
`openassessment_criterion_option_name` input value. -/
structure RubricOption where
  label : String
  explanation : String
  pointsField : Fields.IntField
  dataCriterion : Option String
  dataOption : Option String
  nameFieldVal : String
deriving DecidableEq

/-- A freshly instantiated `RubricOption` DOM node: the constructor builds
the points field with restrictions `{ min: 0, max: 999 }`, no highlight
mark, and no identifier attributes yet. -/
def RubricOption.make (label explanation : String) (points : Option Int) : RubricOption :=
  { label := label
    explanation := explanation
    pointsField := { value := points, min := 0, max := 999, marked := false }
    dataCriterion := none
    dataOption := none
    nameFieldVal := "" }

/-- The method `RubricOption.prototype.validate`: delegate to the points field. -/
def RubricOption.validate (o : RubricOption) : Bool × RubricOption :=
  let r := o.pointsField.validate
  (r.1, { o with pointsField := r.2 })

/-- The method `RubricOption.prototype.validationErrors`: a single message when the
points field reports any error. -/
def RubricOption.validationErrors (o : RubricOption) : List String :=
  if 0 < o.pointsField.validationErrors.length then ["Option points are invalid"] else []

/-- The method `RubricOption.prototype.clearValidationErrors`. -/
def RubricOption.clearValidationErrors (o : RubricOption) : RubricOption :=
  { o with pointsField := o.pointsField.clearValidationErrors }

/-- The payload fired with the `optionAdd` notification by
`RubricOption.prototype.addHandler`. -/
structure OptionAddPayload where
  criterionName : String
  criterionLabel : String
  name : String
  label : String
  points : Option Int
deriving DecidableEq

/-- The method `RubricOption.prototype.addHandler`: compute the unique name over the
criterion's option elements (`siblingIds` are the `data-option` values
already present; the selector also contains the new, not yet named,
element, so its length is `siblingIds.length + 1`), stamp
`data-criterion`, `data-option` and the hidden name input, and only then
build and fire the `optionAdd` payload from the updated fields. -/
def RubricOption.addHandler (o : RubricOption) (criterionName criterionLabel : String)
    (siblingIds : List Nat) : RubricOption × OptionAddPayload :=
  let name := ItemUtilities.createUniqueName (siblingIds.length + 1) siblingIds
  let o2 : RubricOption :=
    { o with dataCriterion := some criterionName, dataOption := some name, nameFieldVal := name }
  (o2,
   { criterionName := criterionName
     criterionLabel := criterionLabel
     name := name
     label := o2.label
     points := o2.pointsField.get })

/-- The state of one `OpenAssessment.RubricCriterion`: label, prompt and
feedback fields, the highlight mark on the prompt field, and the owned
ordered container of options. -/
structure RubricCriterion where
  label : String
  prompt : String
  feedbackVal : String
  promptMarked : Bool
  options : List RubricOption
deriving DecidableEq

/-- One step of the `$.each` loop in `RubricCriterion.prototype.validate`:
each option is validated unconditionally and its result is conjoined with
the accumulator (`isValid = (this.validate() && isValid)`). -/
def criterionValidateStep (acc : Bool × List RubricOption) (o : RubricOption) :
    Bool × List RubricOption :=
  let r := o.validate
  (r.1 && acc.1, acc.2 ++ [r.2])

/-- The method `RubricCriterion.prototype.validate`: the prompt must be non-empty
(the prompt field is highlighted on failure), then every option is
validated in container order and conjoined. -/
def RubricCriterion.validate (c : RubricCriterion) : Bool × RubricCriterion :=
  let isValid := c.prompt != ""
  let c2 := if isValid then c else { c with promptMarked := true }
  let r := c2.options.foldl criterionValidateStep (isValid, [])
  (r.1, { c2 with options := r.2 })

/-- The method `RubricCriterion.prototype.validationErrors`: the prompt message when
the prompt field is highlighted, then each option's errors concatenated
in container order. -/
def RubricCriterion.validationErrors (c : RubricCriterion) : List String :=
  let selfErrors := if c.promptMarked then ["Criterion prompt is invalid."] else []
  c.options.foldl (fun errs o => errs ++ o.validationErrors) selfErrors

/-- The method `RubricCriterion.prototype.clearValidationErrors`: unhighlight the
prompt and clear every option. -/
def RubricCriterion.clearValidationErrors (c : RubricCriterion) : RubricCriterion :=
  { c with promptMarked := false
           options := c.options.map RubricOption.clearValidationErrors }

/-- One option drop-down inside a training example
(`.openassessment_training_example_criterion_option`): its
`data-criterion`, its currently selected value, and the highlight mark. -/
structure ExampleCriterionOption where
  criterion : String
  value : String
  marked : Bool
deriving DecidableEq

/-- The state of one `OpenAssessment.TrainingExample`: the essay answer
and the criterion drop-downs in document order. -/
structure TrainingExample where
  answer : String
  criteria : List ExampleCriterionOption
deriving DecidableEq

/-- One step of the `this.criteria.each` loop in
`TrainingExample.prototype.validate`: a drop-down with an empty value is
highlighted, and validity is conjoined into the accumulator. -/
def trainingValidateStep (acc : Bool × List ExampleCriterionOption)
    (d : ExampleCriterionOption) : Bool × List ExampleCriterionOption :=
  let isOptionValid := d.value != ""
  (isOptionValid && acc.1,
   acc.2 ++ [if isOptionValid then d else { d with marked := true }])

/-- The method `TrainingExample.prototype.validate`: every drop-down must have a
non-empty selection; each failing drop-down is highlighted. -/
def TrainingExample.validate (t : TrainingExample) : Bool × TrainingExample :=
  let r := t.criteria.foldl trainingValidateStep (true, [])
  (r.1, { t with criteria := r.2 })

/-- The method `TrainingExample.prototype.validationErrors`: one message pushed per
highlighted drop-down. -/
def TrainingExample.validationErrors (t : TrainingExample) : List String :=
  t.criteria.foldl
    (fun errs d =>
      if d.marked then errs ++ ["Student training example is invalid."] else errs)
    []

/-- The method `TrainingExample.prototype.clearValidationErrors`: unhighlight every
drop-down. -/
def TrainingExample.clearValidationErrors (t : TrainingExample) : TrainingExample :=
  { t with criteria := t.criteria.map (fun d => { d with marked := false }) }

/-- The state of one `OpenAssessment.AIExampleMenuItem` as seen by
`AIExample.prototype.updateHandler`: its `data-example` attribute (absent
before `addHandler` runs) and the text of its first `h2` heading. -/
structure AIExampleMenuItem where
  dataExample : Option String
  headingText : String
deriving DecidableEq

/-- The update applied by `AIExample.prototype.updateHandler` to the menu
items of the shared `#openassessment_ai_editor_menu_and_editor` scope, in
document order: jQuery selects every menu item whose `data-example`
equals the example's identifier, then `.find('h2').first().text(...)`
writes the label into the first heading of that selection, leaving every
other element untouched (a no-op when the selection is empty). -/
def setFirstMatchingHeading (ident text : String) :
    List AIExampleMenuItem → List AIExampleMenuItem
  | [] => []
  | m :: rest =>
      if m.dataExample = some ident then { m with headingText := text } :: rest
      else m :: setFirstMatchingHeading ident text rest

/-- The method `AIExample.prototype.updateHandler`: push the current label field
value into the heading of the menu item paired by `data-example`. -/
def AIExample.updateHandler (ident labelVal : String)
    (menu : List AIExampleMenuItem) : List AIExampleMenuItem :=
  setFirstMatchingHeading ident labelVal menu

/-- The identifier allocation performed by `AIExample.prototype.addHandler`
(and identically by `AIExampleMenuItem.prototype.addHandler`): the
selector passed to `createUniqueName` is `this.element` — the single new
element, of length 1 — while `selector.parent().find(...)` still scans the
`data-example` values of every already-added sibling (`existing`); the new
element has no `data-example` yet.  The new element's identifier is
appended to the sibling scope. -/
def aiExampleAddIds (existing : List Nat) : List Nat :=
  existing ++ [ItemUtilities.createUniqueNameIndex 1 existing]

/-- The `data-example` identifiers present after `n` successive AIExample
additions into an initially empty editor. -/
def aiExampleIdsAfter : Nat → List Nat
  | 0 => []
  | n + 1 => aiExampleAddIds (aiExampleIdsAfter n)

/-- A concrete training example with one answered and one unanswered
drop-down, used to instantiate the validation theorems. -/
def sampleTrainingExample : TrainingExample :=
  { answer := "essay", criteria := [⟨"clarity", "good", false⟩, ⟨"depth", "", false⟩] }

/-- A concrete training example whose single drop-down is answered but
still carries a stale highlight mark from an earlier failed validation. -/
def sampleStaleExample : TrainingExample :=
  { answer := "essay", criteria := [⟨"clarity", "good", true⟩] }

/-- A concrete criterion with a non-empty prompt, one in-range option and
a stale highlight mark on the prompt field. -/
def sampleStaleCriterion : RubricCriterion :=
  { label := "lbl", prompt := "prompt text", feedbackVal := "optional",
    promptMarked := true, options := [RubricOption.make "opt" "expl" (some 5)] }

/-- A concrete AI-example menu scope with three paired menu items. -/
def sampleMenu : List AIExampleMenuItem :=
  [⟨some "0", "a"⟩, ⟨some "2", "b"⟩, ⟨some "1", "c"⟩]

namespace ItemUtilities

theorem createUniqueNameLoop_finds (selLen : Nat) (used : List Nat) (n : Nat)
    (hfree : n ∉ used) (hsel : n ≤ selLen) :
    ∀ fuel index, index ≤ n → n < index + fuel →
      (∀ m, m < n → m ∈ used) →
      createUniqueNameLoop selLen used index fuel = n := by
  intro fuel
  induction fuel with
  | zero =>
    intro index h1 h2 _
    omega
  | succ fuel ih =>
    intro index h1 h2 hall
    rw [createUniqueNameLoop]
    rw [if_pos (Nat.le_trans h1 hsel)]
    rcases Nat.lt_or_ge index n with hlt | hge
    · rw [if_pos (hall index hlt)]
      exact ih (index + 1) hlt (by omega) hall
    · have hin : index = n := Nat.le_antisymm h1 hge
      subst hin
      rw [if_neg hfree]

theorem createUniqueNameIndex_eq (selLen : Nat) (used : List Nat) (n : Nat)
    (hall : ∀ m, m < n → m ∈ used) (hfree : n ∉ used) (hsel : n ≤ selLen) :
    createUniqueNameIndex selLen used = n :=
  createUniqueNameLoop_finds selLen used n hfree hsel (selLen + 2) 0
    (Nat.zero_le n) (by omega) hall

/-- With `N` siblings at most `N` distinct attribute values are taken, so
when every value below `n` is taken, `n` is at most the number of
values. -/
theorem taken_le_length (used : List Nat) (n : Nat)
    (hall : ∀ m, m < n → m ∈ used) : n ≤ used.length := by
  have hsub : List.range n ⊆ used := fun m hm => hall m (List.mem_range.mp hm)
  have hsp := (List.subperm_of_subset (List.nodup_range n) hsub).length_le
  simpa using hsp

end ItemUtilities

end OpenAssessment

open OpenAssessment

/-- C1: for every sibling set passed as the selector together with an
identifying attribute name, `createUniqueName` returns the smallest
non-negative integer (as a string) not currently used as that attribute's
value among the siblings.  `used` is the list of attribute values carried
by the siblings; since each sibling carries at most one value, the
sibling-set selector has length at least `used.length`, which is the third
hypothesis.  The gap case and the all-of-`0..N-1`-taken case of the claim
are instances (see the witness). -/
theorem createUniqueName_returns_smallest_free (selLen : Nat) (used : List Nat) (n : Nat)
    (hall : ∀ m, m < n → m ∈ used) (hfree : n ∉ used)
    (husedLen : used.length ≤ selLen) :
    ItemUtilities.createUniqueName selLen used = toString n := by
  have hn : n ≤ selLen :=
    Nat.le_trans (ItemUtilities.taken_le_length used n hall) husedLen
  rw [ItemUtilities.createUniqueName,
    ItemUtilities.createUniqueNameIndex_eq selLen used n hall hfree hn]

/-- Witness for C1: four siblings with identifiers `{0, 1, 3}` (one gap)
yield `"2"`; three siblings taking all of `0..2` yield `"3"`. -/
theorem createUniqueName_returns_smallest_free_app :
    ItemUtilities.createUniqueName 4 [0, 1, 3] = toString 2 ∧
    ItemUtilities.createUniqueName 3 [0, 1, 2] = toString 3 :=
  ⟨createUniqueName_returns_smallest_free 4 [0, 1, 3] 2 (by decide) (by decide) (by decide),
   createUniqueName_returns_smallest_free 3 [0, 1, 2] 3 (by decide) (by decide) (by decide)⟩

/-- C2: the no-duplicate-identifier invariant is broken by the AIExample
(and AIExampleMenuItem) `addHandler`, which passes only the newly created
element to `createUniqueName`: the scan bound `index <= selector.length`
is then 1, so the fourth addition into a scope whose examples already
hold identifiers `0, 1, 2` falls out of the loop and allocates the
duplicate identifier `2`. -/
theorem aiExample_fourth_add_duplicates_identifier :
    aiExampleIdsAfter 4 = [0, 1, 2, 2] ∧ ¬ (aiExampleIdsAfter 4).Nodup := by
  exact ⟨by decide, by decide⟩

theorem criterionValidate_foldl_fst (opts : List OpenAssessment.RubricOption) :
    ∀ b l, (opts.foldl OpenAssessment.criterionValidateStep (b, l)).1 =
      ((opts.all fun o => (o.validate).1) && b) := by
  induction opts with
  | nil => intro b l; simp
  | cons o rest ih =>
    intro b l
    rw [List.foldl_cons, List.all_cons]
    rw [show OpenAssessment.criterionValidateStep (b, l) o =
      ((o.validate).1 && b, l ++ [(o.validate).2]) from rfl]
    rw [ih]
    cases (o.validate).1 <;> cases b <;> simp

theorem criterionValidate_foldl_snd (opts : List OpenAssessment.RubricOption) :
    ∀ b l, (opts.foldl OpenAssessment.criterionValidateStep (b, l)).2 =
      l ++ (opts.map fun o => (o.validate).2) := by
  induction opts with
  | nil => intro b l; simp
  | cons o rest ih =>
    intro b l
    rw [List.foldl_cons]
    rw [show OpenAssessment.criterionValidateStep (b, l) o =
      ((o.validate).1 && b, l ++ [(o.validate).2]) from rfl]
    rw [ih, List.map_cons, List.append_assoc]
    rfl

theorem criterionErrors_foldl_eq (opts : List OpenAssessment.RubricOption) :
    ∀ init : List String,
      (opts.foldl (fun errs o => errs ++ o.validationErrors) init) =
        init ++ (opts.map OpenAssessment.RubricOption.validationErrors).flatten := by
  induction opts with
  | nil => intro init; simp
  | cons o rest ih => intro init; simp [ih]

theorem rubricOption_prompt_message_not_mem (o : OpenAssessment.RubricOption) :
    "Criterion prompt is invalid." ∉ o.validationErrors := by
  unfold OpenAssessment.RubricOption.validationErrors
  split <;> simp

theorem criterion_prompt_error_mem (c : OpenAssessment.RubricCriterion) :
    "Criterion prompt is invalid." ∈ c.validationErrors ↔ c.promptMarked = true := by
  unfold OpenAssessment.RubricCriterion.validationErrors
  rw [criterionErrors_foldl_eq]
  by_cases h : c.promptMarked <;>
    simp [h, List.mem_flatten, rubricOption_prompt_message_not_mem]

theorem criterion_validate_fst (c : OpenAssessment.RubricCriterion) :
    (c.validate).1 = ((c.options.all fun o => (o.validate).1) && (c.prompt != "")) := by
  unfold OpenAssessment.RubricCriterion.validate
  by_cases h : c.prompt = "" <;> simp [h, criterionValidate_foldl_fst]

theorem criterion_validate_options (c : OpenAssessment.RubricCriterion) :
    (c.validate).2.options = (c.options.map fun o => (o.validate).2) := by
  unfold OpenAssessment.RubricCriterion.validate
  by_cases h : c.prompt = "" <;> simp [h, criterionValidate_foldl_snd]

theorem criterion_validate_promptMarked (c : OpenAssessment.RubricCriterion) :
    (c.validate).2.promptMarked = (c.promptMarked || (c.prompt == "")) := by
  unfold OpenAssessment.RubricCriterion.validate
  by_cases h : c.prompt = "" <;> simp [h]

/-- C3: `RubricCriterion.validate` is true exactly when the prompt is
non-empty and every child option validates; every child option's
`validate` is applied even after an earlier failure (the resulting option
states are exactly the per-option validation results, in order); the
prompt field ends up marked whenever it was already marked or the prompt
is empty, and `validationErrors` of the resulting state contains
`"Criterion prompt is invalid."` exactly when the prompt field is
marked — in particular an empty prompt marks the field and surfaces the
message. -/
theorem rubricCriterion_validate_spec (c : OpenAssessment.RubricCriterion) :
    ((c.validate).1 = true ↔
      (c.prompt ≠ "" ∧ ∀ o ∈ c.options, (o.validate).1 = true)) ∧
    (c.validate).2.options = (c.options.map fun o => (o.validate).2) ∧
    (c.validate).2.promptMarked = (c.promptMarked || (c.prompt == "")) ∧
    ("Criterion prompt is invalid." ∈ ((c.validate).2).validationErrors ↔
      (c.validate).2.promptMarked = true) := by
  refine ⟨?_, criterion_validate_options c, criterion_validate_promptMarked c,
    criterion_prompt_error_mem (c.validate).2⟩
  rw [criterion_validate_fst]
  simp [List.all_eq_true, and_comm]

/-- C4: a freshly created option (whose points field is configured with
the inclusive range `[0, 999]` and carries no mark) validates true
exactly when its numeric points value lies in `[0, 999]` — so 0 and 999
validate true while -1 and 1000 validate false — and after the validation
its error list is empty on success and exactly
`["Option points are invalid"]` on failure. -/
theorem rubricOption_points_range_spec (l e : String) (p : Int) :
    (((OpenAssessment.RubricOption.make l e (some p)).validate).1 =
      decide (0 ≤ p ∧ p ≤ 999)) ∧
    (((OpenAssessment.RubricOption.make l e (some p)).validate).2.validationErrors =
      if 0 ≤ p ∧ p ≤ 999 then [] else ["Option points are invalid"]) := by
  unfold OpenAssessment.RubricOption.make OpenAssessment.RubricOption.validate
    OpenAssessment.RubricOption.validationErrors
  unfold OpenAssessment.Fields.IntField.validate OpenAssessment.Fields.IntField.isValid
    OpenAssessment.Fields.IntField.validationErrors
  by_cases h : 0 ≤ p ∧ p ≤ 999 <;>
    simp [h, OpenAssessment.Fields.IntField.clearValidationErrors, Bool.decide_and]

theorem trainingValidate_foldl_fst (ds : List OpenAssessment.ExampleCriterionOption) :
    ∀ b l, (ds.foldl OpenAssessment.trainingValidateStep (b, l)).1 =
      ((ds.all fun d => d.value != "") && b) := by
  induction ds with
  | nil => intro b l; simp
  | cons d rest ih =>
    intro b l
    rw [List.foldl_cons, List.all_cons]
    rw [show OpenAssessment.trainingValidateStep (b, l) d =
      ((d.value != "") && b,
       l ++ [if d.value != "" then d else { d with marked := true }]) from rfl]
    rw [ih]
    cases hv : (d.value != "") <;> cases b <;> simp [hv]

theorem trainingValidate_foldl_snd (ds : List OpenAssessment.ExampleCriterionOption) :
    ∀ b l, (ds.foldl OpenAssessment.trainingValidateStep (b, l)).2 =
      l ++ (ds.map fun d => if d.value != "" then d else { d with marked := true }) := by
  induction ds with
  | nil => intro b l; simp
  | cons d rest ih =>
    intro b l
    rw [List.foldl_cons]
    rw [show OpenAssessment.trainingValidateStep (b, l) d =
      ((d.value != "") && b,
       l ++ [if d.value != "" then d else { d with marked := true }]) from rfl]
    rw [ih, List.map_cons, List.append_assoc]
    rfl

theorem trainingErrors_foldl_length (ds : List OpenAssessment.ExampleCriterionOption) :
    ∀ init : List String,
      (ds.foldl
        (fun errs d =>
          if d.marked then errs ++ ["Student training example is invalid."] else errs)
        init).length = init.length + (ds.filter fun d => d.marked).length := by
  induction ds with
  | nil => intro init; simp
  | cons d rest ih =>
    intro init
    by_cases h : d.marked <;> simp [h, ih] <;> omega

theorem trainingExample_errors_length (t : OpenAssessment.TrainingExample) :
    t.validationErrors.length = (t.criteria.filter fun d => d.marked).length := by
  unfold OpenAssessment.TrainingExample.validationErrors
  rw [trainingErrors_foldl_length]
  simp

theorem filter_marked_after_validate (l : List OpenAssessment.ExampleCriterionOption)
    (h : ∀ d ∈ l, d.marked = false) :
    ((l.map fun d => if d.value != "" then d else { d with marked := true }).filter
        fun d => d.marked).length =
      (l.filter fun d => d.value == "").length := by
  rw [List.map_filter, List.length_map]
  have hcong : ∀ d ∈ l,
      ((fun x : OpenAssessment.ExampleCriterionOption => x.marked) ∘
        fun d => if d.value != "" then d else { d with marked := true }) d =
        (fun d : OpenAssessment.ExampleCriterionOption => d.value == "") d := by
    intro d hd
    by_cases hv : d.value = "" <;> simp [hv, h d hd]
  rw [List.filter_congr hcong]

theorem training_validate_fst (t : OpenAssessment.TrainingExample) :
    (t.validate).1 = (t.criteria.all fun d => d.value != "") := by
  unfold OpenAssessment.TrainingExample.validate
  rw [trainingValidate_foldl_fst]
  simp

theorem training_validate_criteria (t : OpenAssessment.TrainingExample) :
    (t.validate).2.criteria =
      t.criteria.map fun d => if d.value != "" then d else { d with marked := true } := by
  unfold OpenAssessment.TrainingExample.validate
  simp only [trainingValidate_foldl_snd]
  simp

/-- C5: `TrainingExample.validate` is false exactly when at least one of
the example's option drop-downs has the empty value; the drop-downs it
marks are exactly the failing ones (an empty-valued drop-down gets the
highlight mark, every other drop-down is left untouched); and, starting
from unmarked drop-downs, a subsequent `validationErrors` returns one
message per failing drop-down — in particular exactly one message for
exactly one unselected drop-down. -/
theorem trainingExample_validate_spec (t : OpenAssessment.TrainingExample)
    (hfresh : ∀ d ∈ t.criteria, d.marked = false) :
    ((t.validate).1 = false ↔ ∃ d ∈ t.criteria, d.value = "") ∧
    ((t.validate).2.criteria =
      t.criteria.map fun d => if d.value != "" then d else { d with marked := true }) ∧
    ((t.validate).2.validationErrors.length =
      (t.criteria.filter fun d => d.value == "").length) := by
  refine ⟨?_, training_validate_criteria t, ?_⟩
  · rw [training_validate_fst]
    simp [List.all_eq_true]
  · rw [trainingExample_errors_length, training_validate_criteria]
    exact filter_marked_after_validate t.criteria hfresh

/-- Witness for C5: a training example with one answered and one
unanswered drop-down validates false and reports exactly one message. -/
theorem trainingExample_validate_spec_app :
    ((OpenAssessment.sampleTrainingExample.validate).1 = false) ∧
    (OpenAssessment.sampleTrainingExample.validate).2.validationErrors.length = 1 := by
  have h := trainingExample_validate_spec OpenAssessment.sampleTrainingExample (by decide)
  refine ⟨h.1.mpr ⟨⟨"depth", "", false⟩, by decide, rfl⟩, ?_⟩
  rw [h.2.2]
  decide

/-- C6: `RubricOption.addHandler` first derives the identifier from the
current sibling options via the name generator and stamps it onto the
item (`data-option` attribute) and its identity field (the hidden name
input); the `optionAdd` payload is built only from the post-mutation
state, and its `name` field equals exactly the stamped identifier. -/
theorem rubricOption_addHandler_spec (o : OpenAssessment.RubricOption)
    (cn cl : String) (sib : List Nat) :
    ((o.addHandler cn cl sib).2.name =
      OpenAssessment.ItemUtilities.createUniqueName (sib.length + 1) sib) ∧
    ((o.addHandler cn cl sib).1.dataOption = some ((o.addHandler cn cl sib).2.name)) ∧
    ((o.addHandler cn cl sib).1.nameFieldVal = (o.addHandler cn cl sib).2.name) ∧
    ((o.addHandler cn cl sib).1.dataCriterion = some cn) ∧
    ((o.addHandler cn cl sib).2.criterionName = cn) ∧
    ((o.addHandler cn cl sib).2.criterionLabel = cl) ∧
    ((o.addHandler cn cl sib).2.label = (o.addHandler cn cl sib).1.label) ∧
    ((o.addHandler cn cl sib).2.points = (o.addHandler cn cl sib).1.pointsField.get) :=
  ⟨rfl, rfl, rfl, rfl, rfl, rfl, rfl, rfl⟩

theorem menuMap_eq_self_of_no_match (ident text : String)
    (l : List OpenAssessment.AIExampleMenuItem)
    (h : ∀ x ∈ l, x.dataExample ≠ some ident) :
    (l.map fun m =>
      if m.dataExample = some ident then { m with headingText := text } else m) = l := by
  induction l with
  | nil => rfl
  | cons m rest ih =>
    have hm : m.dataExample ≠ some ident := h m (List.mem_cons_self m rest)
    have hrest : ∀ x ∈ rest, x.dataExample ≠ some ident :=
      fun x hx => h x (List.mem_cons_of_mem m hx)
    rw [List.map_cons, if_neg hm, ih hrest]

theorem setFirstMatchingHeading_map_of_unique (ident text : String) :
    ∀ menu : List OpenAssessment.AIExampleMenuItem,
      (menu.filter fun m => m.dataExample == some ident).length ≤ 1 →
      OpenAssessment.setFirstMatchingHeading ident text menu =
        menu.map fun m =>
          if m.dataExample = some ident then { m with headingText := text } else m := by
  intro menu
  induction menu with
  | nil => intro _; rfl
  | cons m rest ih =>
    intro huniq
    by_cases h : m.dataExample = some ident
    · have hm : (m.dataExample == some ident) = true := by simp [h]
      have hrest : ∀ x ∈ rest, x.dataExample ≠ some ident := by
        rw [List.filter_cons, hm] at huniq
        simp at huniq
        exact huniq
      rw [OpenAssessment.setFirstMatchingHeading, if_pos h, List.map_cons, if_pos h,
        menuMap_eq_self_of_no_match ident text rest hrest]
    · have hm : (m.dataExample == some ident) = false := by simp [h]
      have hrest : (rest.filter fun m => m.dataExample == some ident).length ≤ 1 := by
        rw [List.filter_cons, hm] at huniq
        simpa using huniq
      rw [OpenAssessment.setFirstMatchingHeading, if_neg h, List.map_cons, if_neg h, ih hrest]

/-- C7: when at most one menu item in the shared menu-and-editor scope
carries the example's identifier, `AIExample.updateHandler` rewrites the
heading of exactly the matching menu item to the new label text and maps
every menu item with a different identifier to itself — in particular,
when no menu item matches, every item is left unchanged and the update is
a silent no-op. -/
theorem aiExample_updateHandler_spec (ident labelVal : String)
    (menu : List OpenAssessment.AIExampleMenuItem)
    (huniq : (menu.filter fun m => m.dataExample == some ident).length ≤ 1) :
    OpenAssessment.AIExample.updateHandler ident labelVal menu =
      menu.map fun m =>
        if m.dataExample = some ident then { m with headingText := labelVal } else m :=
  setFirstMatchingHeading_map_of_unique ident labelVal menu huniq

/-- Witness for C7: in a three-item menu, updating the example with
identifier `"2"` rewrites only the heading of the menu item with
identifier `"2"`, and an update whose identifier matches no menu item
leaves the menu unchanged. -/
theorem aiExample_updateHandler_spec_app :
    OpenAssessment.AIExample.updateHandler "2" "Foo" OpenAssessment.sampleMenu =
      [⟨some "0", "a"⟩, ⟨some "2", "Foo"⟩, ⟨some "1", "c"⟩] ∧
    OpenAssessment.AIExample.updateHandler "9" "Foo" OpenAssessment.sampleMenu =
      OpenAssessment.sampleMenu := by
  have h2 := aiExample_updateHandler_spec "2" "Foo" OpenAssessment.sampleMenu (by decide)
  have h9 := aiExample_updateHandler_spec "9" "Foo" OpenAssessment.sampleMenu (by decide)
  rw [h2, h9]
  exact ⟨by decide, by decide⟩

/-- C8 counterexample: with invalid points (`NaN`) and an empty label the
code renders the substituted `"Unnamed Option"` placeholder, not the raw
(empty) label that the claim's invalid-points branch asks for. -/
theorem refreshOptionString_nan_empty_label_cex :
    OpenAssessment.ItemUtilities.refreshOptionString none "" "x" = "Unnamed Option" ∧
    OpenAssessment.ItemUtilities.refreshOptionString none "" "x" ≠ "" :=
  ⟨by decide, by decide⟩

/-- C8 (amended): the formatting computes the fixed `"Not Selected"`
placeholder when the value is empty; otherwise the empty-label
substitution applies before the branch on points validity, so when
points is not a valid number the function renders the label with the
`"Unnamed Option"` placeholder substituted for an empty label, and
otherwise the pluralization-aware `"label - N point(s)"` string with the
same substitution — in particular label `""`, points 5 and a non-empty
value render `"Unnamed Option - 5 points"`. -/
theorem refreshOptionString_spec (points : Option Int) (labelAttr name : String) :
    (OpenAssessment.ItemUtilities.refreshOptionString points labelAttr name =
      if name = "" then "Not Selected"
      else
        match points with
        | none => if labelAttr = "" then "Unnamed Option" else labelAttr
        | some v =>
            (if labelAttr = "" then "Unnamed Option" else labelAttr) ++ " - " ++
              toString v ++ (if v = 1 then " point" else " points")) ∧
    OpenAssessment.ItemUtilities.refreshOptionString (some 5) "" "x" =
      "Unnamed Option - 5 points" := by
  refine ⟨?_, by decide⟩
  unfold OpenAssessment.ItemUtilities.refreshOptionString
    OpenAssessment.ItemUtilities.gettext OpenAssessment.ItemUtilities.ngettext
  by_cases hn : name = ""
  · simp [hn]
  · cases points with
    | none => simp [hn]
    | some v =>
      by_cases hl : labelAttr = "" <;> by_cases hv : v = 1 <;>
        simp [hn, hl, hv]

theorem rubricOption_clear_errors (o : OpenAssessment.RubricOption) :
    o.clearValidationErrors.validationErrors = [] := rfl

theorem filter_marked_map_unmark (l : List OpenAssessment.ExampleCriterionOption) :
    ((l.map fun d => { d with marked := false }).filter fun d => d.marked) = [] := by
  induction l with
  | nil => rfl
  | cons d rest ih => simpa using ih

theorem trainingExample_clear_errors (t : OpenAssessment.TrainingExample) :
    t.clearValidationErrors.validationErrors = [] := by
  have h := trainingExample_errors_length t.clearValidationErrors
  rw [show t.clearValidationErrors.criteria =
      t.criteria.map (fun d => { d with marked := false }) from rfl,
    filter_marked_map_unmark] at h
  exact List.length_eq_zero.mp (by simpa using h)

theorem rubricCriterion_clear_errors (c : OpenAssessment.RubricCriterion) :
    c.clearValidationErrors.validationErrors = [] := by
  unfold OpenAssessment.RubricCriterion.validationErrors
  rw [criterionErrors_foldl_eq]
  rw [show c.clearValidationErrors.promptMarked = false from rfl,
    show c.clearValidationErrors.options =
      c.options.map OpenAssessment.RubricOption.clearValidationErrors from rfl,
    List.map_map]
  simp [Function.comp, rubricOption_clear_errors]

theorem rubricCriterion_clear_idem (c : OpenAssessment.RubricCriterion) :
    c.clearValidationErrors.clearValidationErrors = c.clearValidationErrors := by
  have h : ∀ o : OpenAssessment.RubricOption,
      o.clearValidationErrors.clearValidationErrors = o.clearValidationErrors := fun _ => rfl
  simp [OpenAssessment.RubricCriterion.clearValidationErrors, List.map_map, Function.comp, h]

theorem trainingExample_clear_idem (t : OpenAssessment.TrainingExample) :
    t.clearValidationErrors.clearValidationErrors = t.clearValidationErrors := by
  simp [OpenAssessment.TrainingExample.clearValidationErrors, List.map_map, Function.comp]

/-- C9: for each of `RubricOption`, `RubricCriterion` and
`TrainingExample`, `clearValidationErrors` establishes the no-errors
state and is idempotent, so calling it twice in a row leaves
`validationErrors` empty after the first call and after the second. -/
theorem clearValidationErrors_idempotent_spec (o : OpenAssessment.RubricOption)
    (c : OpenAssessment.RubricCriterion) (t : OpenAssessment.TrainingExample) :
    (o.clearValidationErrors.validationErrors = [] ∧
      o.clearValidationErrors.clearValidationErrors = o.clearValidationErrors) ∧
    (c.clearValidationErrors.validationErrors = [] ∧
      c.clearValidationErrors.clearValidationErrors = c.clearValidationErrors) ∧
    (t.clearValidationErrors.validationErrors = [] ∧
      t.clearValidationErrors.clearValidationErrors = t.clearValidationErrors) :=
  ⟨⟨rubricOption_clear_errors o, rfl⟩,
   ⟨rubricCriterion_clear_errors c, rubricCriterion_clear_idem c⟩,
   ⟨trainingExample_clear_errors t, trainingExample_clear_idem t⟩⟩

theorem map_validate_id_of_values (l : List OpenAssessment.ExampleCriterionOption)
    (h : ∀ d ∈ l, d.value ≠ "") :
    (l.map fun d => if d.value != "" then d else { d with marked := true }) = l := by
  induction l with
  | nil => rfl
  | cons d rest ih =>
    have hd : (d.value != "") = true := by simp [h d (List.mem_cons_self d rest)]
    have hrest : ∀ x ∈ rest, x.value ≠ "" := fun x hx => h x (List.mem_cons_of_mem d hx)
    rw [List.map_cons, if_pos hd, ih hrest]

/-- C10: `validate` only adds highlight marks and never removes any: a
training example whose drop-downs all hold values but one of which still
carries a mark from an earlier failed validation validates true while its
`validationErrors` still reports the stale message, which only
`clearValidationErrors` empties; likewise a criterion with a non-empty
prompt, valid options and a stale prompt mark validates true while
`validationErrors` still contains the prompt message — so `validate`
returning true does not imply `validationErrors` is empty. -/
theorem validate_keeps_stale_marks (t : OpenAssessment.TrainingExample)
    (c : OpenAssessment.RubricCriterion)
    (ht1 : ∃ d ∈ t.criteria, d.marked = true)
    (ht2 : ∀ d ∈ t.criteria, d.value ≠ "")
    (hc1 : c.promptMarked = true)
    (hc2 : c.prompt ≠ "")
    (hc3 : ∀ o ∈ c.options, (o.validate).1 = true) :
    (t.validate).1 = true ∧ (t.validate).2.validationErrors ≠ [] ∧
    ((t.validate).2.clearValidationErrors).validationErrors = [] ∧
    (c.validate).1 = true ∧ (c.validate).2.validationErrors ≠ [] := by
  have hcrit : (t.validate).2.criteria = t.criteria := by
    rw [training_validate_criteria, map_validate_id_of_values t.criteria ht2]
  refine ⟨?_, ?_, trainingExample_clear_errors (t.validate).2, ?_, ?_⟩
  · rw [training_validate_fst]
    simp only [List.all_eq_true]
    intro d hd
    simpa using ht2 d hd
  · have hlen := trainingExample_errors_length (t.validate).2
    rw [hcrit] at hlen
    obtain ⟨d, hd, hm⟩ := ht1
    have hmem : d ∈ t.criteria.filter fun d => d.marked :=
      List.mem_filter.mpr ⟨hd, by simp [hm]⟩
    have hpos : 0 < (t.validate).2.validationErrors.length := by
      rw [hlen]
      exact List.length_pos.mpr (List.ne_nil_of_mem hmem)
    exact List.length_pos.mp hpos
  · rw [criterion_validate_fst]
    have hall : (c.options.all fun o => (o.validate).1) = true :=
      List.all_eq_true.mpr fun o ho => hc3 o ho
    simp [hall, hc2]
  · have hpm : (c.validate).2.promptMarked = true := by
      rw [criterion_validate_promptMarked, hc1]
      simp
    exact List.ne_nil_of_mem ((criterion_prompt_error_mem (c.validate).2).mpr hpm)

/-- Witness for C10: a one-drop-down example with a stale mark and a
criterion with a stale prompt mark both validate true yet still report
errors, and clearing the example empties its error list. -/
theorem validate_keeps_stale_marks_app :
    (OpenAssessment.sampleStaleExample.validate).1 = true ∧
    (OpenAssessment.sampleStaleExample.validate).2.validationErrors ≠ [] ∧
    ((OpenAssessment.sampleStaleExample.validate).2.clearValidationErrors).validationErrors =
      [] ∧
    (OpenAssessment.sampleStaleCriterion.validate).1 = true ∧
    (OpenAssessment.sampleStaleCriterion.validate).2.validationErrors ≠ [] :=
  validate_keeps_stale_marks OpenAssessment.sampleStaleExample
    OpenAssessment.sampleStaleCriterion
    (by decide) (by decide) (by decide) (by decide) (by decide)
